import Mathlib

/-!
Ledger Import and Reporting Engine: verification development.

Shallow embedding of the import/aggregation/report core of the
`libro_caja_peniel` repository (source files
`src/components/TransactionList.tsx`, `src/components/Annotations.tsx`,
`src/types.ts`), together with proofs about the embedded definitions.

Modelling conventions:
* JavaScript numbers that carry monetary amounts are modelled as exact
  rationals (`ℚ`); IEEE-754 rounding is outside the model.
* JavaScript strings are modelled as Lean `String`; the Unicode-dependent
  primitives (`toLowerCase`, `toUpperCase`, `normalize("NFD")`, `trim`,
  the `\s` character class) are modelled character-by-character, exactly
  on ASCII and the Latin-1 letters used by the application, and as the
  identity on other code points.
* `crypto.randomUUID()` is modelled as an external generator
  `gen : Nat → String` supplying the id of the n-th emitted record, and
  `new Date()` as an external `today : String` parameter.
* JavaScript truthiness of a string (`s || d`) is modelled by `jsOr` /
  `jsOrS`: the default is taken when the value is `undefined` (`none`)
  or the empty string.
-/

/-! ## Data model (src/types.ts) -/

inductive MovementCategory where
  | INCOME
  | EXPENSE
deriving DecidableEq, Repr

structure Center where
  id : String
  name : String
  code : String
deriving DecidableEq, Repr

structure MovementType where
  id : String
  name : String
  category : MovementCategory
  subCategory : Option String := none
deriving DecidableEq, Repr

structure Transaction where
  id : String
  date : String
  centerId : String
  movementTypeId : String
  detail : String
  amount : ℚ
  currency : String
  attachment : Option String := none
  excludeFromPdf : Option Bool := none
deriving DecidableEq, Repr

/-! ## JavaScript string primitives -/

/-- The character class `\s` of a JavaScript regular expression,
modelled on ASCII whitespace. -/
def isJsSpace (c : Char) : Bool :=
  c = ' ' || c = '\t' || c = '\n' || c = '\r' || c = '\x0b' || c = '\x0c'

/-- Models `String.prototype.toLowerCase`, exactly on ASCII and the Latin-1
uppercase letters (`À`–`Þ` except `×`); other code points are unchanged. -/
def jsToLowerChar (c : Char) : Char :=
  if 'A' ≤ c ∧ c ≤ 'Z' then Char.ofNat (c.toNat + 32)
  else if 0xC0 ≤ c.toNat ∧ c.toNat ≤ 0xDE ∧ c.toNat ≠ 0xD7 then Char.ofNat (c.toNat + 32)
  else c

/-- Models `String.prototype.toUpperCase`, exactly on ASCII and the Latin-1
lowercase letters (`à`–`þ` except `÷`); other code points are unchanged. -/
def jsToUpperChar (c : Char) : Char :=
  if 'a' ≤ c ∧ c ≤ 'z' then Char.ofNat (c.toNat - 32)
  else if 0xE0 ≤ c.toNat ∧ c.toNat ≤ 0xFE ∧ c.toNat ≠ 0xF7 then Char.ofNat (c.toNat - 32)
  else c

def jsToLower (s : String) : String := String.mk (s.data.map jsToLowerChar)

def jsToUpper (s : String) : String := String.mk (s.data.map jsToUpperChar)

/-- Canonical decomposition (`normalize("NFD")`) of one character,
modelled for the Latin-1 lowercase accented letters produced by
`jsToLower` (the only ones the application's data can contain after
lower-casing); other code points decompose to themselves. -/
def nfdChar (c : Char) : List Char :=
  if c = '\u00E0' then ['a', '\u0300'] else if c = '\u00E1' then ['a', '\u0301']
  else if c = '\u00E2' then ['a', '\u0302'] else if c = '\u00E3' then ['a', '\u0303']
  else if c = '\u00E4' then ['a', '\u0308'] else if c = '\u00E5' then ['a', '\u030A']
  else if c = '\u00E7' then ['c', '\u0327']
  else if c = '\u00E8' then ['e', '\u0300'] else if c = '\u00E9' then ['e', '\u0301']
  else if c = '\u00EA' then ['e', '\u0302'] else if c = '\u00EB' then ['e', '\u0308']
  else if c = '\u00EC' then ['i', '\u0300'] else if c = '\u00ED' then ['i', '\u0301']
  else if c = '\u00EE' then ['i', '\u0302'] else if c = '\u00EF' then ['i', '\u0308']
  else if c = '\u00F1' then ['n', '\u0303']
  else if c = '\u00F2' then ['o', '\u0300'] else if c = '\u00F3' then ['o', '\u0301']
  else if c = '\u00F4' then ['o', '\u0302'] else if c = '\u00F5' then ['o', '\u0303']
  else if c = '\u00F6' then ['o', '\u0308']
  else if c = '\u00F9' then ['u', '\u0300'] else if c = '\u00FA' then ['u', '\u0301']
  else if c = '\u00FB' then ['u', '\u0302'] else if c = '\u00FC' then ['u', '\u0308']
  else if c = '\u00FD' then ['y', '\u0301'] else if c = '\u00FF' then ['y', '\u0308']
  else [c]

/-- The combining-diacritics range `[̀-ͯ]` removed by `normalize`. -/
def isCombiningMark (c : Char) : Bool :=
  0x300 ≤ c.toNat && c.toNat ≤ 0x36F

/-- Models `String.prototype.trim` (ASCII whitespace). -/
def jsTrim (s : String) : String :=
  String.mk (((s.data.dropWhile isJsSpace).reverse.dropWhile isJsSpace).reverse)

/-- The helper `normalize` from TransactionList.tsx (named `normalizeStr`
here because Mathlib already declares `normalize`):
`str.toLowerCase().normalize("NFD").replace(/[̀-ͯ]/g, "").trim()`. -/
def normalizeStr (str : String) : String :=
  jsTrim (String.mk (((str.data.map jsToLowerChar).flatMap nfdChar).filter
    (fun c => !isCombiningMark c)))

/-- JavaScript `x || d` where `x : string | undefined`: the default is
taken for `undefined` and for the (falsy) empty string. -/
def jsOr (x : Option String) (d : String) : String :=
  match x with
  | some s => if s = "" then d else s
  | none => d

/-- JavaScript `s || d` for a present string `s`. -/
def jsOrS (s d : String) : String := if s = "" then d else s

/-- Number of occurrences of a character, as in `(line.match(/,/g) || []).length`. -/
def countChar (s : String) (c : Char) : Nat := s.data.count c

/-- Models `String.prototype.split(c)` for a one-character separator. -/
def splitOnCharAux (c : Char) : List Char → String → List String
  | [], cur => [cur]
  | x :: r, cur => if x = c then cur :: splitOnCharAux c r "" else splitOnCharAux c r (cur.push x)

def splitOnChar (s : String) (c : Char) : List String := splitOnCharAux c s.data ""

def stripTrailingCR (s : String) : String :=
  match s.data.getLast? with
  | some c => if c = '\r' then String.mk s.data.dropLast else s
  | none => s

/-- Models `text.split(/\r?\n/)`: split at every newline, a `\r` immediately
before a `\n` being consumed with it. -/
def splitLines (text : String) : List String :=
  let chunks := splitOnChar text '\n'
  chunks.dropLast.map stripTrailingCR ++ chunks.getLast?.toList

/-- Models `s.replace(/x/g, '')` for a single character `x`. -/
def removeAllChar (s : String) (a : Char) : String :=
  String.mk (s.data.filter (fun c => c ≠ a))

def replaceFirstCharAux (a b : Char) : List Char → List Char
  | [] => []
  | c :: r => if c = a then b :: r else c :: replaceFirstCharAux a b r

/-- Models `s.replace(a, b)` with a plain (non-global) one-character pattern:
only the first occurrence is replaced. -/
def replaceFirstChar (s : String) (a b : Char) : String :=
  String.mk (replaceFirstCharAux a b s.data)

/-- Models `s.padStart(2, '0')`. -/
def padStart2 (s : String) : String :=
  if s.length ≥ 2 then s else String.mk (List.replicate (2 - s.length) '0') ++ s

/-- Models `s.includes(c)` for a one-character needle. -/
def containsChar (s : String) (c : Char) : Bool := s.data.contains c

/-- Prefix test on character lists. -/
def isPrefixOfChars : List Char → List Char → Bool
  | [], _ => true
  | _ :: _, [] => false
  | a :: as, b :: bs => a = b && isPrefixOfChars as bs

/-- Models `s.startsWith(p)`. -/
def jsStartsWith (s p : String) : Bool := isPrefixOfChars p.data s.data

/-- Contiguous-subsequence test on character lists. -/
def containsSeq (needle : List Char) : List Char → Bool
  | [] => needle.isEmpty
  | c :: rest => isPrefixOfChars needle (c :: rest) || containsSeq needle rest

/-- Models `hay.includes(needle)`. -/
def strIncludes (hay needle : String) : Bool := containsSeq needle.data hay.data

/-- Models `s.substring(0, n)`. -/
def takeChars (s : String) (n : Nat) : String := String.mk (s.data.take n)

/-! ## Line Tokenizer (`parseCSVLine`, TransactionList.tsx lines 151-175) -/

/-- Character loop of `parseCSVLine`: `inQuote`, `current` and `result`
are the mutable variables of the source; a doubled quote inside a quoted
field emits one literal quote and skips the second character
(`i++` in the source). -/
def parseCSVLineGo (delimiter : Char) : Bool → String → List String → List Char → List String
  | _, current, result, [] => result ++ [current]
  | true, current, result, '"' :: '"' :: rest =>
      parseCSVLineGo delimiter true (current.push '"') result rest
  | inQuote, current, result, '"' :: rest =>
      parseCSVLineGo delimiter (!inQuote) current result rest
  | inQuote, current, result, c :: rest =>
      if c = delimiter && !inQuote then
        parseCSVLineGo delimiter inQuote "" (result ++ [current]) rest
      else parseCSVLineGo delimiter inQuote (current.push c) result rest

/-- Helper to split one CSV line handling quotes (`parseCSVLine`). -/
def parseCSVLine (text : String) (delimiter : Char) : List String :=
  parseCSVLineGo delimiter false "" [] text.data

/-! ## Field decoders -/

/-- Result of JavaScript `parseFloat`: either `NaN` or a finite value
(modelled exactly as a rational; `Infinity` literals are not modelled). -/
inductive JsNum where
  | nan
  | val (q : ℚ)
deriving DecidableEq, Repr

def digitsVal (ds : List Char) : ℕ :=
  ds.foldl (fun a c => a * 10 + (c.toNat - '0'.toNat)) 0

/-- Models JavaScript `parseFloat`: longest numeric prefix
`[+-]? digits ['.' digits] [('e'|'E') [+-]? digits]`, `NaN` when no
digit is found; trailing garbage is ignored. -/
def parseFloatJs (s : String) : JsNum :=
  let cs := s.data.dropWhile isJsSpace
  let sign : ℚ × List Char :=
    match cs with
    | '+' :: r => (1, r)
    | '-' :: r => (-1, r)
    | r => (1, r)
  let intDigits := sign.2.takeWhile Char.isDigit
  let rest1 := sign.2.dropWhile Char.isDigit
  let frac : List Char × List Char :=
    match rest1 with
    | '.' :: r => (r.takeWhile Char.isDigit, r.dropWhile Char.isDigit)
    | r => ([], r)
  if intDigits.isEmpty && frac.1.isEmpty then JsNum.nan
  else
    let mantissa : ℚ := (digitsVal intDigits : ℚ) + (digitsVal frac.1 : ℚ) / (10 ^ frac.1.length)
    let exp : ℤ :=
      match frac.2 with
      | e :: r =>
        if e = 'e' || e = 'E' then
          let esign : ℤ × List Char :=
            match r with
            | '+' :: rr => (1, rr)
            | '-' :: rr => (-1, rr)
            | rr => (1, rr)
          let eds := esign.2.takeWhile Char.isDigit
          if eds.isEmpty then 0 else esign.1 * (digitsVal eds : ℤ)
        else 0
      | [] => 0
    JsNum.val (sign.1 * mantissa * (10 : ℚ) ^ exp)

/-- Models `(cell || '0').replace(/[$\s]/g, '')`: the currency symbol `$`
and all whitespace are removed before parsing. -/
def stripAmount (s : String) : String :=
  String.mk (s.data.filter (fun c => !(c = '$' || isJsSpace c)))

/-- Amount decoder of `parseSheetCSV` (TransactionList.tsx lines 243-255):
strip `$` and spaces, then branch on which separators occur. -/
def parseAmount (raw : String) : JsNum :=
  let rawAmount := stripAmount raw
  if containsChar rawAmount ',' && containsChar rawAmount '.' then
    parseFloatJs (replaceFirstChar (removeAllChar rawAmount '.') ',' '.')
  else if containsChar rawAmount ',' then
    parseFloatJs (replaceFirstChar rawAmount ',' '.')
  else
    parseFloatJs rawAmount

/-- Date decoder of `parseSheetCSV` (TransactionList.tsx lines 259-270):
`dd/mm/yyyy` is reordered to `yyyy-mm-dd` with zero padding; an absent or
empty cell defaults to the processing date `today`. -/
def decodeDate (today : String) (cell : Option String) : String :=
  match cell with
  | none => today
  | some d =>
    if d ≠ "" ∧ containsChar d '/' then
      let parts := splitOnChar d '/'
      if parts.length = 3 then
        jsTrim (parts.getD 2 "") ++ "-" ++ padStart2 (jsTrim (parts.getD 1 "")) ++ "-" ++
          padStart2 (jsTrim (parts.getD 0 ""))
      else d
    else if jsTrim d = "" then today
    else d

/-- Currency decoder of `parseSheetCSV` (TransactionList.tsx lines 293-296):
uppercase, trim, keep only `A`-`Z`, default to `ARS` unless exactly three
letters remain. -/
def decodeCurrency (cell : Option String) : String :=
  let c1 := jsTrim (jsToUpper (jsOr cell "ARS"))
  let c2 := String.mk (c1.data.filter (fun ch => 'A' ≤ ch && ch ≤ 'Z'))
  if c2.length ≠ 3 then "ARS" else c2

/-! ## Movement-type classifier (TransactionList.tsx lines 229-291) -/

/-- Comparator of `[...movementTypes].sort((a, b) => b.name.length - a.name.length)`:
descending raw display-name length. -/
def typeLenGE (a b : MovementType) : Prop := b.name.length ≤ a.name.length

instance : DecidableRel typeLenGE := fun a b =>
  inferInstanceAs (Decidable (b.name.length ≤ a.name.length))

instance : IsTotal MovementType typeLenGE :=
  ⟨fun a b => Nat.le_total b.name.length a.name.length⟩

instance : IsTrans MovementType typeLenGE :=
  ⟨fun _ _ _ h1 h2 => Nat.le_trans h2 h1⟩

/-- The classifier: sort the catalog by raw name length descending
(stable), then return the first entry whose normalized name is contained
in the normalized input text; an empty normalized input matches nothing. -/
def classify (movementTypes : List MovementType) (text : String) : Option MovementType :=
  let sortedTypes := List.insertionSort typeLenGE movementTypes
  let csvTypeNorm := normalizeStr text
  if csvTypeNorm = "" then none
  else sortedTypes.find? (fun mt => strIncludes csvTypeNorm (normalizeStr mt.name))

/-- Comparator written from the specification text: descending
normalized-name length. -/
def typeNormLenGE (a b : MovementType) : Prop :=
  (normalizeStr b.name).length ≤ (normalizeStr a.name).length

instance : DecidableRel typeNormLenGE := fun a b =>
  inferInstanceAs (Decidable ((normalizeStr b.name).length ≤ (normalizeStr a.name).length))

/-- Classifier modelled from the specification's words (for comparison
with `classify`): sort catalog entries by normalized-name length in
descending order, return the first entry whose normalized name is
contained in the normalized input text. -/
def classifySpec (movementTypes : List MovementType) (text : String) : Option MovementType :=
  let sortedTypes := List.insertionSort typeNormLenGE movementTypes
  let csvTypeNorm := normalizeStr text
  if csvTypeNorm = "" then none
  else sortedTypes.find? (fun mt => strIncludes csvTypeNorm (normalizeStr mt.name))

/-! ## Import Reconciler (`parseSheetCSV`, TransactionList.tsx lines 180-326) -/

/-- The fields of an emitted transaction except the generated `id`
(the source builds the object around `crypto.randomUUID()`;
`attachment` and `excludeFromPdf` are not set by the importer). -/
structure TransactionData where
  date : String
  centerId : String
  movementTypeId : String
  detail : String
  amount : ℚ
  currency : String
deriving DecidableEq, Repr

def Transaction.ofData (id : String) (d : TransactionData) : Transaction :=
  { id := id, date := d.date, centerId := d.centerId, movementTypeId := d.movementTypeId,
    detail := d.detail, amount := d.amount, currency := d.currency }

def stripId (t : Transaction) : TransactionData :=
  { date := t.date, centerId := t.centerId, movementTypeId := t.movementTypeId,
    detail := t.detail, amount := t.amount, currency := t.currency }

/-- Tokenized and trimmed cells of one data row. -/
def rowCols (line : String) (delimiter : Char) : List String :=
  (parseCSVLine line delimiter).map jsTrim

/-- Models `idxTypeDesc !== -1 ? (cols[idxTypeDesc] || '') : ''`. -/
def rawTypeDescOf (cols : List String) (idxTypeDesc : Option Nat) : String :=
  match idxTypeDesc with
  | some i => jsOr cols[i]? ""
  | none => ""

/-- Body of the per-row loop of `parseSheetCSV` (lines 236-312): `none`
models `continue` (unparseable or zero amount); otherwise the candidate
record without its generated id. -/
def processRow (today : String) (centers : List Center) (movementTypes : List MovementType)
    (delimiter : Char) (idxDate idxAmount : Nat) (idxDetail idxCurrency idxTypeDesc : Option Nat)
    (line : String) : Option TransactionData :=
  let cols := rowCols line delimiter
  match parseAmount (jsOr cols[idxAmount]? "0") with
  | JsNum.nan => none
  | JsNum.val amount =>
    if amount = 0 then none
    else
      let rawTypeDesc := rawTypeDescOf cols idxTypeDesc
      let matchedType := classify movementTypes rawTypeDesc
      some {
        date := decodeDate today cols[idxDate]?,
        centerId := jsOr (centers.head?.map Center.id) "default",
        movementTypeId :=
          match matchedType with
          | some mt => mt.id
          | none => jsOr (movementTypes.head?.map MovementType.id) "unknown",
        detail := jsOr (idxDetail.bind (fun i => cols[i]?))
          (jsOrS rawTypeDesc "Importado desde CSV"),
        amount := |amount|,
        currency := decodeCurrency (idxCurrency.bind (fun i => cols[i]?)) }

/-- Structural failures of the import: fewer than two non-empty lines,
or a header without the mandatory date/amount columns (the source shows
an alert carrying the detected headers and returns). -/
inductive ImportAbort where
  | emptyFile
  | missingColumns (headers : List String)
deriving DecidableEq, Repr

structure ImportResult where
  imported : List Transaction
  errors : Nat
deriving DecidableEq, Repr

/-- Non-empty lines of the file: `csvText.split(/\r?\n/).filter(l => l.trim() !== '')`. -/
def nonEmptyLines (csvText : String) : List String :=
  (splitLines csvText).filter (fun l => jsTrim l ≠ "")

/-- Delimiter detection from the header line: `;` wins ties. -/
def detectDelimiter (firstLine : String) : Char :=
  if countChar firstLine ';' ≥ countChar firstLine ',' then ';' else ','

/-- Normalized header cells of the first line. -/
def headersOf (firstLine : String) : List String :=
  (parseCSVLine firstLine (detectDelimiter firstLine)).map normalizeStr

def findIdxDate (headers : List String) : Option Nat :=
  headers.findIdx? (fun h => h = "fecha")

def findIdxAmount (headers : List String) : Option Nat :=
  headers.findIdx? (fun h => h = "monto2" || h = "monto")

/-- Column for the classification text: `descripcion_tipo_movimiento`
preferred, falling back to `tipo_movimiento` or `descripcion`. -/
def findIdxTypeDesc (headers : List String) : Option Nat :=
  match headers.findIdx? (fun h => h = "descripcion_tipo_movimiento") with
  | some i => some i
  | none => headers.findIdx? (fun h => h = "tipo_movimiento" || h = "descripcion")

/-- One iteration of the row loop: a decoded row is appended with a fresh
generated id, a skipped row (`continue`) touches neither list nor counter;
the source's `catch` arm increments `errors`, but no statement of the loop
body can throw, so it is never reached and `errors` stays `0`. -/
def importStep (gen : Nat → String) (P : String → Option TransactionData)
    (st : ImportResult) (line : String) : ImportResult :=
  match P line with
  | some d =>
      { st with imported := st.imported ++ [Transaction.ofData (gen st.imported.length) d] }
  | none => st

/-- The row loop (`for (let i = 1; ...)`). -/
def importRows (gen : Nat → String) (today : String) (centers : List Center)
    (movementTypes : List MovementType) (delimiter : Char) (idxDate idxAmount : Nat)
    (idxDetail idxCurrency idxTypeDesc : Option Nat) (rows : List String) : ImportResult :=
  rows.foldl
    (importStep gen (processRow today centers movementTypes delimiter idxDate idxAmount
      idxDetail idxCurrency idxTypeDesc))
    { imported := [], errors := 0 }

/-- The Import Reconciler `parseSheetCSV`. -/
def parseSheetCSV (gen : Nat → String) (today : String) (centers : List Center)
    (movementTypes : List MovementType) (csvText : String) : Except ImportAbort ImportResult :=
  match nonEmptyLines csvText with
  | firstLine :: row :: rows =>
    let headers := headersOf firstLine
    match findIdxDate headers, findIdxAmount headers with
    | some idxDate, some idxAmount =>
        Except.ok (importRows gen today centers movementTypes (detectDelimiter firstLine)
          idxDate idxAmount (headers.findIdx? (fun h => h = "detalle"))
          (headers.findIdx? (fun h => h = "moneda")) (findIdxTypeDesc headers) (row :: rows))
    | _, _ => Except.error (ImportAbort.missingColumns headers)
  | _ => Except.error ImportAbort.emptyFile

/-- The observable part of an import run without the randomly generated
ids. -/
def stripRunIds (r : Except ImportAbort ImportResult) :
    Except ImportAbort (List TransactionData × Nat) :=
  r.map (fun res => (res.imported.map stripId, res.errors))

/-! ## Ledger Aggregator (`statsByCurrency`, Annotations.tsx lines 248-268,
and `groupedTransactions`, TransactionList.tsx lines 104-133) -/

/-- The helper `isIncome` (TransactionList.tsx line 41): the category of
the first catalog entry with the given id, compared against `INCOME`;
an unresolved reference is therefore not income. -/
def isIncome (movementTypes : List MovementType) (id : String) : Bool :=
  match movementTypes.find? (fun m => m.id = id) with
  | some m => m.category = MovementCategory.INCOME
  | none => false

/-- Per-currency accumulator `{ income, expense, balance }`. -/
structure CurrStats where
  income : ℚ
  expense : ℚ
  balance : ℚ
deriving DecidableEq, Repr

/-- The currency key of a transaction: `t.currency || 'ARS'`. -/
def currKey (t : Transaction) : String := jsOrS t.currency "ARS"

/-- One iteration of the aggregation loop shared by `statsByCurrency`
(`forEach`) and the `totals` reduce of `groupedTransactions`: create the
group on first sight, then add the amount to income or expense and move
the balance accordingly. -/
def statsStep (movementTypes : List MovementType) (acc : String → Option CurrStats)
    (t : Transaction) : String → Option CurrStats :=
  let key := currKey t
  let prev := (acc key).getD { income := 0, expense := 0, balance := 0 }
  let next :=
    if isIncome movementTypes t.movementTypeId then
      { prev with income := prev.income + t.amount, balance := prev.balance + t.amount }
    else
      { prev with expense := prev.expense + t.amount, balance := prev.balance - t.amount }
  fun c => if c = key then some next else acc c

/-- The dashboard aggregate `statsByCurrency`, as a finite map modelled by
a function that is `none` on currencies never seen. -/
def statsByCurrency (movementTypes : List MovementType) (transactions : List Transaction) :
    String → Option CurrStats :=
  transactions.foldl (statsStep movementTypes) (fun _ => none)

/-- Month key of a transaction: `t.date.substring(0, 7)`. -/
def monthKey (t : Transaction) : String := takeChars t.date 7

/-- Record-key insertion: a new month key is appended, a seen one ignored. -/
def insertMonthKey (ks : List String) (t : Transaction) : List String :=
  if monthKey t ∈ ks then ks else ks ++ [monthKey t]

/-- Keys of the grouping record, in insertion (first-occurrence) order. -/
def monthKeys (transactions : List Transaction) : List String :=
  transactions.foldl insertMonthKey []

/-- Comparator of `Object.entries(groups).sort((a, b) => b[0].localeCompare(a[0]))`:
descending key order (string comparison on `YYYY-MM` keys). -/
def strGE (a b : String) : Prop := b ≤ a

instance : DecidableRel strGE := fun a b => inferInstanceAs (Decidable (b ≤ a))

/-- One entry of the grouped view: month, its transactions, and the
per-currency totals of that month. -/
structure MonthGroup where
  month : String
  transactions : List Transaction
  totals : String → Option CurrStats

/-- The monthly grouping `groupedTransactions`: bucket by month key in
insertion order, sort the entries by key descending, and total each
bucket with the same per-currency fold as the dashboard. -/
def groupedTransactions (movementTypes : List MovementType)
    (transactions : List Transaction) : List MonthGroup :=
  (List.insertionSort strGE (monthKeys transactions)).map (fun m =>
    let txs := transactions.filter (fun t => monthKey t = m)
    { month := m, transactions := txs,
      totals := txs.foldl (statsStep movementTypes) (fun _ => none) })

/-- Balance stored for a currency, `0` when the currency never occurs. -/
def balOf (o : Option CurrStats) : ℚ :=
  match o with
  | some s => s.balance
  | none => 0

def incOf (o : Option CurrStats) : ℚ :=
  match o with
  | some s => s.income
  | none => 0

def expOf (o : Option CurrStats) : ℚ :=
  match o with
  | some s => s.expense
  | none => 0

/-! ## Report Composer (`generatePDF`, TransactionList.tsx lines 329-437) -/

/-- Transactions selected for the monthly report:
`transactions.filter(t => t.date.startsWith(pdfTargetMonth))`. -/
def pdfTransactions (pdfTargetMonth : String) (transactions : List Transaction) :
    List Transaction :=
  transactions.filter (fun t => jsStartsWith t.date pdfTargetMonth)

/-- Report grand total of income (TransactionList.tsx line 367). -/
def totalIncome (movementTypes : List MovementType) (pdfTargetMonth : String)
    (transactions : List Transaction) : ℚ :=
  ((pdfTransactions pdfTargetMonth transactions).filter
    (fun t => isIncome movementTypes t.movementTypeId)).foldl (fun acc t => acc + t.amount) 0

/-- Report grand total of expense (TransactionList.tsx line 406). -/
def totalExpense (movementTypes : List MovementType) (pdfTargetMonth : String)
    (transactions : List Transaction) : ℚ :=
  ((pdfTransactions pdfTargetMonth transactions).filter
    (fun t => !isIncome movementTypes t.movementTypeId)).foldl (fun acc t => acc + t.amount) 0

/-- Per-movement-type row sum of the report (TransactionList.tsx line 364). -/
def typeSum (mt : MovementType) (pdfTargetMonth : String)
    (transactions : List Transaction) : ℚ :=
  ((pdfTransactions pdfTargetMonth transactions).filter
    (fun t => t.movementTypeId = mt.id)).foldl (fun acc t => acc + t.amount) 0

instance {ε α : Type} [DecidableEq ε] [DecidableEq α] : DecidableEq (Except ε α) :=
  fun x y =>
    match x, y with
    | .error a, .error b =>
      if h : a = b then .isTrue (by rw [h]) else .isFalse (by simp [h])
    | .ok a, .ok b =>
      if h : a = b then .isTrue (by rw [h]) else .isFalse (by simp [h])
    | .error _, .ok _ => .isFalse (by simp)
    | .ok _, .error _ => .isFalse (by simp)

/-! ## Helper lemmas on the import loop -/

theorem foldl_importStep (gen : Nat → String) (P : String → Option TransactionData) :
    ∀ (rows : List String) (txs : List Transaction) (errs : Nat),
      rows.foldl (importStep gen P) { imported := txs, errors := errs } =
        { imported := txs ++ (((rows.filterMap P).enumFrom txs.length).map
            (fun p => Transaction.ofData (gen p.1) p.2)), errors := errs } := by
  intro rows
  induction rows with
  | nil => intro txs errs; simp
  | cons r rows ih =>
    intro txs errs
    cases h : P r with
    | none =>
      simp only [List.foldl_cons, importStep, h, List.filterMap_cons_none h]
      exact ih txs errs
    | some d =>
      simp only [List.foldl_cons, importStep, h, List.filterMap_cons_some h]
      rw [ih (txs ++ [Transaction.ofData (gen txs.length) d]) errs]
      simp [List.enumFrom_cons, List.append_assoc]

theorem importRows_eq (gen : Nat → String) (today : String) (centers : List Center)
    (movementTypes : List MovementType) (delimiter : Char) (idxDate idxAmount : Nat)
    (idxDetail idxCurrency idxTypeDesc : Option Nat) (rows : List String) :
    importRows gen today centers movementTypes delimiter idxDate idxAmount idxDetail
        idxCurrency idxTypeDesc rows =
      { imported := ((rows.filterMap (processRow today centers movementTypes delimiter
          idxDate idxAmount idxDetail idxCurrency idxTypeDesc)).enum).map
            (fun p => Transaction.ofData (gen p.1) p.2),
        errors := 0 } := by
  rw [importRows, foldl_importStep]
  simp [List.enum]

theorem enumFrom_map_ofData_stripId (gen : Nat → String) :
    ∀ (l : List TransactionData) (n : Nat),
      ((l.enumFrom n).map (fun p => Transaction.ofData (gen p.1) p.2)).map stripId = l := by
  intro l
  induction l with
  | nil => intro n; rfl
  | cons d l ih => intro n; simpa [List.enumFrom_cons, stripId, Transaction.ofData] using ih (n + 1)

/-- Entering the row loop: with at least one data line and both mandatory
columns found, the run is `ok` over the data rows. -/
theorem parseSheetCSV_ok (gen : Nat → String) (today : String) (centers : List Center)
    (movementTypes : List MovementType) (csvText : String) (l0 l1 : String)
    (rest : List String) (iD iA : Nat)
    (hl : nonEmptyLines csvText = l0 :: l1 :: rest)
    (hD : findIdxDate (headersOf l0) = some iD)
    (hA : findIdxAmount (headersOf l0) = some iA) :
    parseSheetCSV gen today centers movementTypes csvText =
      Except.ok (importRows gen today centers movementTypes (detectDelimiter l0) iD iA
        ((headersOf l0).findIdx? (fun h => h = "detalle"))
        ((headersOf l0).findIdx? (fun h => h = "moneda"))
        (findIdxTypeDesc (headersOf l0)) (l1 :: rest)) := by
  rw [parseSheetCSV, hl]
  simp only [hD, hA]

/-- A header without the date column or without the amount column aborts
with the detected headers. -/
theorem parseSheetCSV_missing (gen : Nat → String) (today : String) (centers : List Center)
    (movementTypes : List MovementType) (csvText : String) (l0 l1 : String)
    (rest : List String)
    (hl : nonEmptyLines csvText = l0 :: l1 :: rest)
    (h : findIdxDate (headersOf l0) = none ∨ findIdxAmount (headersOf l0) = none) :
    parseSheetCSV gen today centers movementTypes csvText =
      Except.error (ImportAbort.missingColumns (headersOf l0)) := by
  rw [parseSheetCSV, hl]
  rcases h with h | h
  · cases hA : findIdxAmount (headersOf l0) <;> simp only [h, hA]
  · cases hD : findIdxDate (headersOf l0) <;> simp only [h, hD]

/-! ## Helper lemmas on the aggregator -/

/-- Income contribution of one transaction to its currency. -/
def incWeight (movementTypes : List MovementType) (c : String) (t : Transaction) : ℚ :=
  if currKey t = c then (if isIncome movementTypes t.movementTypeId then t.amount else 0) else 0

/-- Expense contribution of one transaction to its currency. -/
def expWeight (movementTypes : List MovementType) (c : String) (t : Transaction) : ℚ :=
  if currKey t = c then (if isIncome movementTypes t.movementTypeId then 0 else t.amount) else 0

/-- Signed (balance) contribution of one transaction to its currency. -/
def balWeight (movementTypes : List MovementType) (c : String) (t : Transaction) : ℚ :=
  if currKey t = c then
    (if isIncome movementTypes t.movementTypeId then t.amount else -t.amount)
  else 0

theorem statsStep_incOf (movementTypes : List MovementType) (acc : String → Option CurrStats)
    (t : Transaction) (c : String) :
    incOf ((statsStep movementTypes acc t) c) = incOf (acc c) + incWeight movementTypes c t := by
  by_cases hc : c = currKey t
  · subst hc
    cases hacc : acc (currKey t) <;>
      by_cases hI : isIncome movementTypes t.movementTypeId <;>
        simp [statsStep, incWeight, incOf, hacc, hI]
  · have hc' : ¬ currKey t = c := fun h => hc h.symm
    simp [statsStep, incWeight, incOf, hc, hc']

theorem statsStep_expOf (movementTypes : List MovementType) (acc : String → Option CurrStats)
    (t : Transaction) (c : String) :
    expOf ((statsStep movementTypes acc t) c) = expOf (acc c) + expWeight movementTypes c t := by
  by_cases hc : c = currKey t
  · subst hc
    cases hacc : acc (currKey t) <;>
      by_cases hI : isIncome movementTypes t.movementTypeId <;>
        simp [statsStep, expWeight, expOf, hacc, hI]
  · have hc' : ¬ currKey t = c := fun h => hc h.symm
    simp [statsStep, expWeight, expOf, hc, hc']

theorem statsStep_balOf (movementTypes : List MovementType) (acc : String → Option CurrStats)
    (t : Transaction) (c : String) :
    balOf ((statsStep movementTypes acc t) c) = balOf (acc c) + balWeight movementTypes c t := by
  by_cases hc : c = currKey t
  · subst hc
    cases hacc : acc (currKey t) <;>
      by_cases hI : isIncome movementTypes t.movementTypeId <;>
        simp [statsStep, balWeight, balOf, hacc, hI, sub_eq_add_neg]
  · have hc' : ¬ currKey t = c := fun h => hc h.symm
    simp [statsStep, balWeight, balOf, hc, hc']

theorem foldl_statsStep_incOf (movementTypes : List MovementType) :
    ∀ (l : List Transaction) (acc : String → Option CurrStats) (c : String),
      incOf ((l.foldl (statsStep movementTypes) acc) c) =
        incOf (acc c) + (l.map (incWeight movementTypes c)).sum := by
  intro l
  induction l with
  | nil => intro acc c; simp
  | cons t l ih =>
    intro acc c
    rw [List.foldl_cons, ih, statsStep_incOf]
    simp [add_assoc]

theorem foldl_statsStep_expOf (movementTypes : List MovementType) :
    ∀ (l : List Transaction) (acc : String → Option CurrStats) (c : String),
      expOf ((l.foldl (statsStep movementTypes) acc) c) =
        expOf (acc c) + (l.map (expWeight movementTypes c)).sum := by
  intro l
  induction l with
  | nil => intro acc c; simp
  | cons t l ih =>
    intro acc c
    rw [List.foldl_cons, ih, statsStep_expOf]
    simp [add_assoc]

theorem foldl_statsStep_balOf (movementTypes : List MovementType) :
    ∀ (l : List Transaction) (acc : String → Option CurrStats) (c : String),
      balOf ((l.foldl (statsStep movementTypes) acc) c) =
        balOf (acc c) + (l.map (balWeight movementTypes c)).sum := by
  intro l
  induction l with
  | nil => intro acc c; simp
  | cons t l ih =>
    intro acc c
    rw [List.foldl_cons, ih, statsStep_balOf]
    simp [add_assoc]

theorem balWeight_sum_eq (movementTypes : List MovementType) (c : String) :
    ∀ l : List Transaction,
      (l.map (balWeight movementTypes c)).sum =
        (l.map (incWeight movementTypes c)).sum - (l.map (expWeight movementTypes c)).sum := by
  intro l
  induction l with
  | nil => simp
  | cons t l ih =>
    simp only [List.map_cons, List.sum_cons, ih]
    have ht : balWeight movementTypes c t = incWeight movementTypes c t -
        expWeight movementTypes c t := by
      by_cases hc : currKey t = c <;>
        by_cases hI : isIncome movementTypes t.movementTypeId <;>
          simp [balWeight, incWeight, expWeight, hc, hI]
    rw [ht]; ring

theorem subset_foldl_insertMonthKey :
    ∀ (l : List Transaction) (ks : List String), ks ⊆ l.foldl insertMonthKey ks := by
  intro l
  induction l with
  | nil => intro ks; exact fun _ h => h
  | cons t l ih =>
    intro ks
    refine fun x hx => ?_
    have h1 : ks ⊆ insertMonthKey ks t := by
      unfold insertMonthKey
      split
      · exact fun _ h => h
      · exact fun _ h => List.mem_append_left _ h
    exact ih (insertMonthKey ks t) (h1 hx)

theorem mem_foldl_insertMonthKey :
    ∀ (l : List Transaction) (ks : List String) (t : Transaction), t ∈ l →
      monthKey t ∈ l.foldl insertMonthKey ks := by
  intro l
  induction l with
  | nil => intro ks t h; cases h
  | cons a l ih =>
    intro ks t h
    rcases List.mem_cons.mp h with h | h
    · subst h
      have h1 : monthKey t ∈ insertMonthKey ks t := by
        unfold insertMonthKey
        split
        · assumption
        · exact List.mem_append_right _ (List.mem_singleton.mpr rfl)
      exact subset_foldl_insertMonthKey l (insertMonthKey ks t) h1
    · exact ih (insertMonthKey ks a) t h

theorem nodup_foldl_insertMonthKey :
    ∀ (l : List Transaction) (ks : List String), ks.Nodup →
      (l.foldl insertMonthKey ks).Nodup := by
  intro l
  induction l with
  | nil => intro ks h; exact h
  | cons t l ih =>
    intro ks h
    refine ih (insertMonthKey ks t) ?_
    unfold insertMonthKey
    split
    · exact h
    · simp_all [List.nodup_append]

theorem monthKeys_nodup (l : List Transaction) : (monthKeys l).Nodup :=
  nodup_foldl_insertMonthKey l [] List.nodup_nil

theorem monthKey_mem_monthKeys (l : List Transaction) (t : Transaction) (h : t ∈ l) :
    monthKey t ∈ monthKeys l :=
  mem_foldl_insertMonthKey l [] t h

theorem sum_map_add_distrib {α : Type} (f g : α → ℚ) :
    ∀ K : List α, (K.map (fun m => f m + g m)).sum = (K.map f).sum + (K.map g).sum := by
  intro K
  induction K with
  | nil => simp
  | cons k K ih => simp only [List.map_cons, List.sum_cons, ih]; ring

theorem sum_map_ite_zero_of_not_mem (a : String) (x : ℚ) :
    ∀ K : List String, a ∉ K → (K.map (fun m => if a = m then x else 0)).sum = 0 := by
  intro K
  induction K with
  | nil => intro _; simp
  | cons k K ih =>
    intro h
    have hak : ¬ a = k := fun hh => h (hh ▸ List.mem_cons_self k K)
    have haK : a ∉ K := fun hh => h (List.mem_cons_of_mem k hh)
    simp [hak, ih haK]

theorem sum_map_ite_single (a : String) (x : ℚ) :
    ∀ K : List String, K.Nodup → a ∈ K →
      (K.map (fun m => if a = m then x else 0)).sum = x := by
  intro K
  induction K with
  | nil => intro _ h; cases h
  | cons k K ih =>
    intro hnd hmem
    rcases List.mem_cons.mp hmem with h | h
    · subst h
      have : a ∉ K := (List.nodup_cons.mp hnd).1
      simp [sum_map_ite_zero_of_not_mem a x K this]
    · have hak : ¬ a = k := fun hh => (List.nodup_cons.mp hnd).1 (hh ▸ h)
      simp [hak, ih (List.nodup_cons.mp hnd).2 h]

/-- Summing a per-transaction weight bucket-by-bucket over any duplicate-free
key list covering the transactions gives the sum over the whole list. -/
theorem sum_over_keys (w : Transaction → ℚ) :
    ∀ (l : List Transaction) (K : List String), K.Nodup →
      (∀ t ∈ l, monthKey t ∈ K) →
      (K.map (fun m => ((l.filter (fun t => monthKey t = m)).map w).sum)).sum =
        (l.map w).sum := by
  intro l
  induction l with
  | nil =>
    intro K _ _
    simp [List.map_const]
  | cons t l ih =>
    intro K hnd hcov
    have hmem : monthKey t ∈ K := hcov t (List.mem_cons_self t l)
    have hcov' : ∀ t' ∈ l, monthKey t' ∈ K := fun t' h => hcov t' (List.mem_cons_of_mem t h)
    have hsplit : ∀ m : String,
        ((List.filter (fun t' => monthKey t' = m) (t :: l)).map w).sum =
          (if monthKey t = m then w t else 0) +
            ((l.filter (fun t' => monthKey t' = m)).map w).sum := by
      intro m
      by_cases h : monthKey t = m <;> simp [List.filter_cons, h]
    calc (K.map (fun m => ((List.filter (fun t' => monthKey t' = m) (t :: l)).map w).sum)).sum
        = (K.map (fun m => (if monthKey t = m then w t else 0) +
            ((l.filter (fun t' => monthKey t' = m)).map w).sum)).sum := by
          congr 1
          exact List.map_congr_left (fun m _ => hsplit m)
      _ = (K.map (fun m => if monthKey t = m then w t else 0)).sum +
            (K.map (fun m => ((l.filter (fun t' => monthKey t' = m)).map w).sum)).sum :=
          sum_map_add_distrib _ _ K
      _ = w t + (l.map w).sum := by
          rw [sum_map_ite_single (monthKey t) (w t) K hnd hmem, ih K hnd hcov']
      _ = ((t :: l).map w).sum := by simp

theorem statsByCurrency_components (movementTypes : List MovementType)
    (l : List Transaction) (c : String) (s : CurrStats)
    (h : statsByCurrency movementTypes l c = some s) :
    s.income = (l.map (incWeight movementTypes c)).sum ∧
      s.expense = (l.map (expWeight movementTypes c)).sum ∧
      s.balance = (l.map (balWeight movementTypes c)).sum := by
  have hi : incOf (statsByCurrency movementTypes l c) =
      incOf ((fun _ => (none : Option CurrStats)) c) + (l.map (incWeight movementTypes c)).sum :=
    foldl_statsStep_incOf movementTypes l (fun _ => none) c
  have he : expOf (statsByCurrency movementTypes l c) =
      expOf ((fun _ => (none : Option CurrStats)) c) + (l.map (expWeight movementTypes c)).sum :=
    foldl_statsStep_expOf movementTypes l (fun _ => none) c
  have hb : balOf (statsByCurrency movementTypes l c) =
      balOf ((fun _ => (none : Option CurrStats)) c) + (l.map (balWeight movementTypes c)).sum :=
    foldl_statsStep_balOf movementTypes l (fun _ => none) c
  rw [h] at hi he hb
  simp only [incOf, expOf, balOf, zero_add] at hi he hb
  exact ⟨hi, he, hb⟩

theorem grouped_totals_balance (movementTypes : List MovementType)
    (l : List Transaction) (c : String) :
    ((groupedTransactions movementTypes l).map (fun g => balOf (g.totals c))).sum =
      balOf (statsByCurrency movementTypes l c) := by
  have h1 : ((groupedTransactions movementTypes l).map (fun g => balOf (g.totals c))) =
      (List.insertionSort strGE (monthKeys l)).map
        (fun m => ((l.filter (fun t => monthKey t = m)).map (balWeight movementTypes c)).sum) := by
    rw [groupedTransactions, List.map_map]
    refine List.map_congr_left (fun m _ => ?_)
    simp only [Function.comp_apply]
    rw [foldl_statsStep_balOf]
    simp [balOf]
  rw [h1]
  have h2 : ((List.insertionSort strGE (monthKeys l)).map
      (fun m => ((l.filter (fun t => monthKey t = m)).map (balWeight movementTypes c)).sum)).sum =
      ((monthKeys l).map (fun m => ((l.filter (fun t => monthKey t = m)).map
        (balWeight movementTypes c)).sum)).sum :=
    ((List.perm_insertionSort strGE (monthKeys l)).map _).sum_eq
  rw [h2, sum_over_keys _ l (monthKeys l) (monthKeys_nodup l) (monthKey_mem_monthKeys l)]
  have hb : balOf (statsByCurrency movementTypes l c) =
      balOf ((fun _ => (none : Option CurrStats)) c) + (l.map (balWeight movementTypes c)).sum :=
    foldl_statsStep_balOf movementTypes l (fun _ => none) c
  rw [hb]
  simp [balOf]


/-! ## Helper lemmas on the tokenizer and the classifier -/

theorem parseCSVLineGo_length (delimiter : Char) (inQuote : Bool) (current : String)
    (result : List String) (l : List Char) :
    result.length + 1 ≤ (parseCSVLineGo delimiter inQuote current result l).length := by
  induction inQuote, current, result, l using parseCSVLineGo.induct delimiter with
  | case1 x current result => rw [parseCSVLineGo.eq_1]; simp
  | case2 current result rest ih => rw [parseCSVLineGo.eq_2]; exact ih
  | case3 inQuote current result rest hne ih =>
    rw [parseCSVLineGo.eq_3 delimiter inQuote current result rest hne]; exact ih
  | case4 inQuote current result c rest hne hq hdel ih =>
    rw [parseCSVLineGo.eq_4 delimiter inQuote current result c rest hq hne, if_pos hdel]
    have h2 : (result ++ [current]).length = result.length + 1 := by simp
    omega
  | case5 inQuote current result c rest hne hq hdel ih =>
    rw [parseCSVLineGo.eq_4 delimiter inQuote current result c rest hq hne, if_neg hdel]
    exact ih

theorem parseCSVLine_length_pos (text : String) (delimiter : Char) :
    1 ≤ (parseCSVLine text delimiter).length := by
  have h := parseCSVLineGo_length delimiter false "" [] text.data
  simpa [parseCSVLine] using h

theorem parseCSVLine_not_isEmpty (text : String) (delimiter : Char) :
    (parseCSVLine text delimiter).isEmpty = false := by
  have h := parseCSVLine_length_pos text delimiter
  cases hl : parseCSVLine text delimiter with
  | nil => rw [hl] at h; simp at h
  | cons a l => simp

/-- The first match that `find?` returns on a length-sorted catalog has
maximal name length among all matches. -/
theorem find_sorted_maximal (p : MovementType → Bool) :
    ∀ (l : List MovementType), l.Sorted typeLenGE →
      ∀ mt, l.find? p = some mt →
        p mt = true ∧ ∀ y ∈ l, p y = true → y.name.length ≤ mt.name.length := by
  intro l
  induction l with
  | nil => intro _ mt h; cases h
  | cons a l ih =>
    intro hs mt h
    rcases List.sorted_cons.mp hs with ⟨ha, hl⟩
    by_cases hpa : p a
    · rw [List.find?_cons_of_pos _ hpa] at h
      cases h
      refine ⟨hpa, fun y hy _ => ?_⟩
      rcases List.mem_cons.mp hy with hy | hy
      · subst hy; exact Nat.le_refl _
      · exact ha y hy
    · rw [List.find?_cons_of_neg _ (by simpa using hpa)] at h
      rcases ih hl mt h with ⟨h1, h2⟩
      refine ⟨h1, fun y hy hpy => ?_⟩
      rcases List.mem_cons.mp hy with hy | hy
      · subst hy; exact absurd hpy (by simpa using hpa)
      · exact h2 y hy hpy

/-- A classified entry is a contained match of maximal raw name length. -/
theorem classify_maximal (movementTypes : List MovementType) (text : String)
    (mt : MovementType) (h : classify movementTypes text = some mt) :
    strIncludes (normalizeStr text) (normalizeStr mt.name) = true ∧
      ∀ y ∈ movementTypes, strIncludes (normalizeStr text) (normalizeStr y.name) = true →
        y.name.length ≤ mt.name.length := by
  simp only [classify] at h
  by_cases hn : normalizeStr text = ""
  · rw [if_pos hn] at h; cases h
  · rw [if_neg hn] at h
    have hs : (List.insertionSort typeLenGE movementTypes).Sorted typeLenGE :=
      List.sorted_insertionSort typeLenGE movementTypes
    rcases find_sorted_maximal _ _ hs mt h with ⟨h1, h2⟩
    refine ⟨h1, fun y hy hpy => ?_⟩
    have hy' : y ∈ List.insertionSort typeLenGE movementTypes :=
      (List.perm_insertionSort typeLenGE movementTypes).mem_iff.mpr hy
    exact h2 y hy' hpy

/-- Value of the row processor when the amount decodes to a nonzero value. -/
theorem processRow_some (today : String) (centers : List Center)
    (movementTypes : List MovementType) (delimiter : Char) (idxDate idxAmount : Nat)
    (idxDetail idxCurrency idxTypeDesc : Option Nat) (line : String) (a : ℚ)
    (ha : parseAmount (jsOr (rowCols line delimiter)[idxAmount]? "0") = JsNum.val a)
    (h0 : ¬ a = 0) :
    processRow today centers movementTypes delimiter idxDate idxAmount idxDetail
        idxCurrency idxTypeDesc line =
      some { date := decodeDate today (rowCols line delimiter)[idxDate]?,
             centerId := jsOr (centers.head?.map Center.id) "default",
             movementTypeId :=
               match classify movementTypes
                   (rawTypeDescOf (rowCols line delimiter) idxTypeDesc) with
               | some mt => mt.id
               | none => jsOr (movementTypes.head?.map MovementType.id) "unknown",
             detail := jsOr (idxDetail.bind fun i => (rowCols line delimiter)[i]?)
               (jsOrS (rawTypeDescOf (rowCols line delimiter) idxTypeDesc)
                 "Importado desde CSV"),
             amount := |a|,
             currency := decodeCurrency (idxCurrency.bind fun i =>
               (rowCols line delimiter)[i]?) } := by
  simp only [processRow]
  rw [ha]
  simp only [if_neg h0]

/-- A row whose amount cell does not decode to a finite value is skipped. -/
theorem processRow_nan (today : String) (centers : List Center)
    (movementTypes : List MovementType) (delimiter : Char) (idxDate idxAmount : Nat)
    (idxDetail idxCurrency idxTypeDesc : Option Nat) (line : String)
    (ha : parseAmount (jsOr (rowCols line delimiter)[idxAmount]? "0") = JsNum.nan) :
    processRow today centers movementTypes delimiter idxDate idxAmount idxDetail
        idxCurrency idxTypeDesc line = none := by
  simp only [processRow]
  rw [ha]

/-- A row whose amount decodes to zero is skipped. -/
theorem processRow_zero (today : String) (centers : List Center)
    (movementTypes : List MovementType) (delimiter : Char) (idxDate idxAmount : Nat)
    (idxDetail idxCurrency idxTypeDesc : Option Nat) (line : String)
    (ha : parseAmount (jsOr (rowCols line delimiter)[idxAmount]? "0") = JsNum.val 0) :
    processRow today centers movementTypes delimiter idxDate idxAmount idxDetail
        idxCurrency idxTypeDesc line = none := by
  simp only [processRow]
  rw [ha]
  simp

/-! ## Helper lemmas on the report composer -/

theorem pdfTransactions_set_flag (month : String) (txs : List Transaction) (b : Option Bool) :
    pdfTransactions month (txs.map (fun t => { t with excludeFromPdf := b })) =
      (pdfTransactions month txs).map (fun t => { t with excludeFromPdf := b }) := by
  simp [pdfTransactions, List.filter_map, Function.comp_def]

theorem totalIncome_set_flag (movementTypes : List MovementType) (month : String)
    (txs : List Transaction) (b : Option Bool) :
    totalIncome movementTypes month (txs.map (fun t => { t with excludeFromPdf := b })) =
      totalIncome movementTypes month txs := by
  simp [totalIncome, pdfTransactions_set_flag, List.filter_map, Function.comp_def,
    List.foldl_map]

theorem totalExpense_set_flag (movementTypes : List MovementType) (month : String)
    (txs : List Transaction) (b : Option Bool) :
    totalExpense movementTypes month (txs.map (fun t => { t with excludeFromPdf := b })) =
      totalExpense movementTypes month txs := by
  simp [totalExpense, pdfTransactions_set_flag, List.filter_map, Function.comp_def,
    List.foldl_map]

theorem typeSum_set_flag (mt : MovementType) (month : String)
    (txs : List Transaction) (b : Option Bool) :
    typeSum mt month (txs.map (fun t => { t with excludeFromPdf := b })) =
      typeSum mt month txs := by
  simp [typeSum, pdfTransactions_set_flag, List.filter_map, Function.comp_def,
    List.foldl_map]

/-! ## Concrete fixtures (catalog entries from the repository's initial
data, and small inputs used by witnesses and counterexamples) -/

def ofrMT : MovementType :=
  { id := "ing_ofrendas", name := "OFRENDAS", category := .INCOME,
    subCategory := some "ENTRADAS" }

def ofrMisMT : MovementType :=
  { id := "ing_ofrendas_misioneras", name := "OFRENDAS MISIONERAS", category := .INCOME,
    subCategory := some "ENTRADAS" }

def alqMT : MovementType :=
  { id := "egr_alquileres", name := "ALQUILERES", category := .EXPENSE,
    subCategory := some "GASTOS GENERALES" }

def zzMT : MovementType := { id := "t_zz", name := "ZZZZ", category := .EXPENSE }

def abPadMT : MovementType := { id := "x", name := "AB  ", category := .INCOME }

def abcMT : MovementType := { id := "y", name := "ABC", category := .EXPENSE }

def c1C : Center := { id := "c1", name := "Sede Central", code := "HQ" }

def today0 : String := "2024-09-15"

def genA : Nat → String := fun n => "uuid-a-" ++ toString n

def genB : Nat → String := fun n => "uuid-b-" ++ toString n

def t1000 : Transaction :=
  { id := "t1", date := "2024-01-10", centerId := "c1", movementTypeId := "ing_ofrendas",
    detail := "Ofrenda", amount := 1000, currency := "ARS" }

def t400 : Transaction :=
  { id := "t2", date := "2024-01-20", centerId := "c1", movementTypeId := "egr_alquileres",
    detail := "Alquiler", amount := 400, currency := "ARS" }

/-- The per-currency accumulator the dashboard fold produces on
`[t1000, t400]`, written in its unreduced form. -/
def statsARS : CurrStats := { income := 0 + 1000, expense := 0 + 400, balance := 0 + 1000 - 400 }

/-! ## The claims -/

/-- C1: for every transaction list and movement-type catalog, every
currency group the aggregator produces satisfies
`balance = income - expense`; and re-grouping the same set by calendar
month, the monthly balances of a currency sum to that currency's overall
balance. -/
theorem claim1_balance_invariant :
    (∀ (movementTypes : List MovementType) (l : List Transaction) (c : String) (s : CurrStats),
        statsByCurrency movementTypes l c = some s → s.balance = s.income - s.expense) ∧
    (∀ (movementTypes : List MovementType) (l : List Transaction) (c : String),
        ((groupedTransactions movementTypes l).map (fun g => balOf (g.totals c))).sum =
          balOf (statsByCurrency movementTypes l c)) := by
  constructor
  · intro movementTypes l c s h
    rcases statsByCurrency_components movementTypes l c s h with ⟨hi, he, hb⟩
    rw [hi, he, hb, balWeight_sum_eq]
  · intro movementTypes l c
    exact grouped_totals_balance movementTypes l c

/-- C1 witness: aggregating income 1000 and expense 400 in `ARS` yields a
group whose balance is its income minus its expense (600 = 1000 - 400). -/
theorem claim1_balance_invariant_witness :
    statsByCurrency [ofrMT, alqMT] [t1000, t400] "ARS" = some statsARS ∧
      statsARS.balance = statsARS.income - statsARS.expense :=
  ⟨rfl, claim1_balance_invariant.1 [ofrMT, alqMT] [t1000, t400] "ARS" statsARS rfl⟩

/-- C2: the amount decoder strips the currency symbol and spaces, then:
with both `.` and `,` present it drops the dots and parses with `,` as
decimal point; with only `,` it parses with `,` as decimal point;
otherwise it parses directly; "1.234,50", "1234.50" and "1234,50" all
decode to 1234.50. -/
theorem claim2_amount_decoder :
    (∀ s : String,
        (containsChar (stripAmount s) ',' && containsChar (stripAmount s) '.') = true →
        parseAmount s = parseFloatJs (replaceFirstChar (removeAllChar (stripAmount s) '.') ',' '.')) ∧
    (∀ s : String, containsChar (stripAmount s) ',' = true →
        containsChar (stripAmount s) '.' = false →
        parseAmount s = parseFloatJs (replaceFirstChar (stripAmount s) ',' '.')) ∧
    (∀ s : String, containsChar (stripAmount s) ',' = false →
        parseAmount s = parseFloatJs (stripAmount s)) ∧
    parseAmount "1.234,50" = JsNum.val (1234.50 : ℚ) ∧
    parseAmount "1234.50" = JsNum.val (1234.50 : ℚ) ∧
    parseAmount "1234,50" = JsNum.val (1234.50 : ℚ) := by
  refine ⟨?_, ?_, ?_, ?_, ?_, ?_⟩
  · intro s h
    simp [parseAmount, h]
  · intro s h1 h2
    simp [parseAmount, h1, h2]
  · intro s h
    simp [parseAmount, h]
  · rw [show parseAmount "1.234,50" =
      JsNum.val ((1 : ℚ) * (((1234 : ℕ) : ℚ) + ((50 : ℕ) : ℚ) / (10 : ℚ) ^ (2 : ℕ)) *
        (10 : ℚ) ^ (0 : ℤ)) from rfl]
    norm_num
  · rw [show parseAmount "1234.50" =
      JsNum.val ((1 : ℚ) * (((1234 : ℕ) : ℚ) + ((50 : ℕ) : ℚ) / (10 : ℚ) ^ (2 : ℕ)) *
        (10 : ℚ) ^ (0 : ℤ)) from rfl]
    norm_num
  · rw [show parseAmount "1234,50" =
      JsNum.val ((1 : ℚ) * (((1234 : ℕ) : ℚ) + ((50 : ℕ) : ℚ) / (10 : ℚ) ^ (2 : ℕ)) *
        (10 : ℚ) ^ (0 : ℤ)) from rfl]
    norm_num

/-- C2 witness: each branch of the decoder applied at a concrete string. -/
theorem claim2_amount_decoder_witness :
    parseAmount "1.234,50" =
        parseFloatJs (replaceFirstChar (removeAllChar (stripAmount "1.234,50") '.') ',' '.') ∧
      parseAmount "1234,50" = parseFloatJs (replaceFirstChar (stripAmount "1234,50") ',' '.') ∧
      parseAmount "1234.50" = parseFloatJs (stripAmount "1234.50") :=
  ⟨claim2_amount_decoder.1 "1.234,50" (by decide),
    claim2_amount_decoder.2.1 "1234,50" (by decide) (by decide),
    claim2_amount_decoder.2.2.1 "1234.50" (by decide)⟩

/-- C8: quoted-field tokenizing: a quoted field may contain the delimiter,
a doubled quote denotes one literal quote, an unterminated quote is closed
at end of line, and the tokenizer always returns at least one field
(it never fails). -/
theorem claim8_tokenizer :
    (∀ (line : String) (delimiter : Char), (parseCSVLine line delimiter).isEmpty = false) ∧
    parseCSVLine "a,\"b,c\",d" ',' = ["a", "b,c", "d"] ∧
    parseCSVLine "a,\"b\"\"c\",d" ',' = ["a", "b\"c", "d"] ∧
    parseCSVLine "a,\"b,c" ',' = ["a", "b,c"] :=
  ⟨parseCSVLine_not_isEmpty, by decide, by decide, by decide⟩

/-- A concrete transaction carrying the exclude-from-report flag. -/
def txFlagged : Transaction :=
  { id := "tf", date := "2024-01-05", centerId := "c1", movementTypeId := "ing_ofrendas",
    detail := "Ofrenda flagged", amount := 600, currency := "ARS",
    excludeFromPdf := some true }

/-- C10: the monthly report selects transactions by date prefix only; the
`excludeFromPdf` flag changes neither the selection nor any total, and a
flagged transaction of the month is selected and summed. -/
theorem claim10_pdf_ignores_exclude_flag :
    (∀ (movementTypes : List MovementType) (month : String) (txs : List Transaction)
        (b : Option Bool),
        totalIncome movementTypes month (txs.map (fun t => { t with excludeFromPdf := b })) =
          totalIncome movementTypes month txs) ∧
    (∀ (movementTypes : List MovementType) (month : String) (txs : List Transaction)
        (b : Option Bool),
        totalExpense movementTypes month (txs.map (fun t => { t with excludeFromPdf := b })) =
          totalExpense movementTypes month txs) ∧
    (∀ (mt : MovementType) (month : String) (txs : List Transaction) (b : Option Bool),
        typeSum mt month (txs.map (fun t => { t with excludeFromPdf := b })) =
          typeSum mt month txs) ∧
    (∀ (month : String) (txs : List Transaction) (b : Option Bool),
        pdfTransactions month (txs.map (fun t => { t with excludeFromPdf := b })) =
          (pdfTransactions month txs).map (fun t => { t with excludeFromPdf := b })) ∧
    pdfTransactions "2024-01" [txFlagged] = [txFlagged] ∧
    totalIncome [ofrMT] "2024-01" [txFlagged] = 600 := by
  refine ⟨totalIncome_set_flag, totalExpense_set_flag, typeSum_set_flag,
    pdfTransactions_set_flag, rfl, ?_⟩
  rw [show totalIncome [ofrMT] "2024-01" [txFlagged] = 0 + txFlagged.amount from rfl]
  norm_num [txFlagged]

/-- C3 counterexample: with catalog names "AB  " (raw length 4, normalized
length 2) and "ABC" (raw length 3, normalized length 3), classifying "ABC"
returns the "AB  " entry, while sorting by normalized-name length as the
claim states would return the "ABC" entry. -/
theorem claim3_counterexample :
    classify [abPadMT, abcMT] "ABC" = some abPadMT ∧
    classifySpec [abPadMT, abcMT] "ABC" = some abcMT ∧
    (normalizeStr abPadMT.name).length < (normalizeStr abcMT.name).length ∧
    (abPadMT.id == abcMT.id) = false := by
  refine ⟨by decide, by decide, by decide, by decide⟩

/-- C3 amended: the classifier sorts by raw display-name length (not
normalized length) in descending order; the returned entry is a contained
match of maximal raw name length, and the OFRENDAS example still holds. -/
theorem claim3_longest_match_amended :
    (∀ (movementTypes : List MovementType) (text : String) (mt : MovementType),
        classify movementTypes text = some mt →
          strIncludes (normalizeStr text) (normalizeStr mt.name) = true ∧
            ∀ y ∈ movementTypes,
              strIncludes (normalizeStr text) (normalizeStr y.name) = true →
                y.name.length ≤ mt.name.length) ∧
    classify [ofrMT, ofrMisMT] "OFRENDAS MISIONERAS ESPECIALES" = some ofrMisMT ∧
    (ofrMisMT.id == ofrMT.id) = false :=
  ⟨fun movementTypes text mt h => classify_maximal movementTypes text mt h,
    by decide, by decide⟩

/-- C3 witness: the classifier's result on the OFRENDAS example is a
contained match of maximal name length in the catalog. -/
theorem claim3_longest_match_amended_witness :
    strIncludes (normalizeStr "OFRENDAS MISIONERAS ESPECIALES") (normalizeStr ofrMisMT.name) =
        true ∧
      ∀ y ∈ [ofrMT, ofrMisMT],
        strIncludes (normalizeStr "OFRENDAS MISIONERAS ESPECIALES") (normalizeStr y.name) =
            true →
          y.name.length ≤ ofrMisMT.name.length :=
  claim3_longest_match_amended.1 [ofrMT, ofrMisMT] "OFRENDAS MISIONERAS ESPECIALES" ofrMisMT
    (by decide)

/-- C5 counterexample: a file consisting of only the header line "a;b"
(which lacks both mandatory columns) aborts with the empty-file reason,
not with the missing-columns reason carrying the detected headers. -/
theorem claim5_counterexample :
    findIdxDate (headersOf "a;b") = none ∧
    findIdxAmount (headersOf "a;b") = none ∧
    parseSheetCSV genA today0 [c1C] [ofrMT] "a;b" = Except.error ImportAbort.emptyFile ∧
    ((Except.error ImportAbort.emptyFile : Except ImportAbort ImportResult) ==
      Except.error (ImportAbort.missingColumns (headersOf "a;b"))) = false := by
  refine ⟨by decide, by decide, by decide, by decide⟩

/-- C5 amended: for every file with a header line and at least one data
line, a header lacking the date column or the amount column aborts
immediately with the list of detected (normalized) headers and nothing
imported; a file without a data line aborts even earlier with an
empty-file reason. -/
theorem claim5_missing_columns_amended :
    ∀ (gen : Nat → String) (today : String) (centers : List Center)
      (movementTypes : List MovementType) (csvText l0 l1 : String) (rest : List String),
      nonEmptyLines csvText = l0 :: l1 :: rest →
      (findIdxDate (headersOf l0) = none ∨ findIdxAmount (headersOf l0) = none) →
      parseSheetCSV gen today centers movementTypes csvText =
        Except.error (ImportAbort.missingColumns (headersOf l0)) :=
  fun gen today centers movementTypes csvText l0 l1 rest hl h =>
    parseSheetCSV_missing gen today centers movementTypes csvText l0 l1 rest hl h

/-- C5 witness: a two-line file whose header has neither column aborts
with the detected headers. -/
theorem claim5_missing_columns_amended_witness :
    parseSheetCSV genA today0 [c1C] [ofrMT] "foo;bar\n1;2" =
      Except.error (ImportAbort.missingColumns ["foo", "bar"]) :=
  claim5_missing_columns_amended genA today0 [c1C] [ofrMT] "foo;bar\n1;2" "foo;bar" "1;2" []
    (by decide) (Or.inl (by decide))

/-- C6 counterexample: a file whose single data row has an unparseable
amount is imported as zero transactions with `errors = 0`, although one
row failed row-level decoding; the skip is not counted. -/
theorem claim6_counterexample :
    parseSheetCSV genA today0 [c1C] [ofrMT] "Fecha;Monto\n01/01/2024;abc" =
      Except.ok { imported := [], errors := 0 } ∧
    processRow today0 [c1C] [ofrMT] ';' 0 1 none none none "01/01/2024;abc" = none ∧
    ((0 : Nat) == 1) = false := by
  refine ⟨by decide, by decide, by decide⟩

/-- Imported list produced by the loop: the rows that decode, in order,
with generated ids. -/
def importedFormula (gen : Nat → String) (P : String → Option TransactionData)
    (rows : List String) : List Transaction :=
  ((rows.filterMap P).enum).map (fun p => Transaction.ofData (gen p.1) p.2)

/-- The row processor as configured by the header line `l0`. -/
def rowProcessorOf (today : String) (centers : List Center)
    (movementTypes : List MovementType) (l0 : String) (iD iA : Nat) :
    String → Option TransactionData :=
  processRow today centers movementTypes (detectDelimiter l0) iD iA
    ((headersOf l0).findIdx? (fun h => h = "detalle"))
    ((headersOf l0).findIdx? (fun h => h = "moneda"))
    (findIdxTypeDesc (headersOf l0))

/-- C6 amended: once column detection succeeds the import never aborts:
it returns `ok`, the imported list consists of exactly the rows that
decode (each failing row is dropped and processing continues), and the
error counter stays `0` — it does not count the skipped rows, because
only the unreachable exception handler increments it. -/
theorem claim6_row_errors_amended :
    ∀ (gen : Nat → String) (today : String) (centers : List Center)
      (movementTypes : List MovementType) (csvText l0 l1 : String) (rest : List String)
      (iD iA : Nat),
      nonEmptyLines csvText = l0 :: l1 :: rest →
      findIdxDate (headersOf l0) = some iD →
      findIdxAmount (headersOf l0) = some iA →
      parseSheetCSV gen today centers movementTypes csvText =
        Except.ok
          { imported :=
              importedFormula gen (rowProcessorOf today centers movementTypes l0 iD iA)
                (l1 :: rest),
            errors := 0 } := by
  intro gen today centers movementTypes csvText l0 l1 rest iD iA hl hD hA
  rw [parseSheetCSV_ok gen today centers movementTypes csvText l0 l1 rest iD iA hl hD hA,
    importRows_eq]
  rfl

/-- C6 witness: the end-to-end two-line file imports its one decodable
row with no abort and an error count of zero. -/
theorem claim6_row_errors_amended_witness :
    parseSheetCSV genA today0 [c1C] [ofrMT, ofrMisMT]
        "Fecha;Monto;Detalle;Moneda;Descripcion_Tipo_Movimiento\n01/01/2024;1.500,00;Ofrenda enero;ARS;OFRENDAS" =
      Except.ok
        { imported := importedFormula genA
            (rowProcessorOf today0 [c1C] [ofrMT, ofrMisMT]
              "Fecha;Monto;Detalle;Moneda;Descripcion_Tipo_Movimiento" 0 1)
            ["01/01/2024;1.500,00;Ofrenda enero;ARS;OFRENDAS"],
          errors := 0 } :=
  claim6_row_errors_amended genA today0 [c1C] [ofrMT, ofrMisMT]
    "Fecha;Monto;Detalle;Moneda;Descripcion_Tipo_Movimiento\n01/01/2024;1.500,00;Ofrenda enero;ARS;OFRENDAS"
    "Fecha;Monto;Detalle;Moneda;Descripcion_Tipo_Movimiento"
    "01/01/2024;1.500,00;Ofrenda enero;ARS;OFRENDAS" [] 0 1
    (by decide) (by decide) (by decide)

/-- The value parseFloat produces for the cell "10", in unreduced form. -/
def amount10 : ℚ :=
  (1 : ℚ) * (((10 : ℕ) : ℚ) + ((0 : ℕ) : ℚ) / (10 : ℚ) ^ (0 : ℕ)) * (10 : ℚ) ^ (0 : ℤ)

/-- C4 amended: a row whose amount decodes to a nonzero value but whose
description matches no catalog entry is still emitted (never dropped),
and its movement-type reference is the id of the catalog's first entry
when the catalog is non-empty, falling back to the literal sentinel
"unknown" only for an empty catalog. -/
theorem claim4_unmatched_row_amended :
    ∀ (today : String) (centers : List Center) (movementTypes : List MovementType)
      (delimiter : Char) (idxDate idxAmount : Nat)
      (idxDetail idxCurrency idxTypeDesc : Option Nat) (line : String) (a : ℚ),
      parseAmount (jsOr (rowCols line delimiter)[idxAmount]? "0") = JsNum.val a →
      ¬ a = 0 →
      classify movementTypes (rawTypeDescOf (rowCols line delimiter) idxTypeDesc) = none →
      (processRow today centers movementTypes delimiter idxDate idxAmount idxDetail
            idxCurrency idxTypeDesc line).isSome = true ∧
        (processRow today centers movementTypes delimiter idxDate idxAmount idxDetail
            idxCurrency idxTypeDesc line).map (fun d => d.movementTypeId) =
          some (jsOr (movementTypes.head?.map MovementType.id) "unknown") := by
  intro today centers movementTypes delimiter idxDate idxAmount idxDetail idxCurrency
    idxTypeDesc line a ha h0 hcl
  rw [processRow_some today centers movementTypes delimiter idxDate idxAmount idxDetail
    idxCurrency idxTypeDesc line a ha h0]
  simp [hcl]

/-- C4 witness: the row "01/01/2024;10;ZZZZ" matches nothing in the
one-entry catalog `[ofrMT]` and is emitted referencing `ofrMT.id`. -/
theorem claim4_unmatched_row_amended_witness :
    (processRow today0 [c1C] [ofrMT] ';' 0 1 none none (some 2)
          "01/01/2024;10;ZZZZ").isSome = true ∧
      (processRow today0 [c1C] [ofrMT] ';' 0 1 none none (some 2)
          "01/01/2024;10;ZZZZ").map (fun d => d.movementTypeId) = some "ing_ofrendas" :=
  claim4_unmatched_row_amended today0 [c1C] [ofrMT] ';' 0 1 none none (some 2)
    "01/01/2024;10;ZZZZ" amount10 rfl (by norm_num [amount10]) (by decide)

/-- C9 amended: the movement type of a decoded row is classified from the
type-description column value only — when that value normalizes to the
empty string no classification happens and the default reference (first
catalog entry, or "unknown") is used, never consulting the detail text —
and the center reference is the first center's id, or "default" when the
center catalog is empty. -/
theorem claim9_type_source_amended :
    ∀ (today : String) (centers : List Center) (movementTypes : List MovementType)
      (delimiter : Char) (idxDate idxAmount : Nat)
      (idxDetail idxCurrency idxTypeDesc : Option Nat) (line : String) (a : ℚ),
      parseAmount (jsOr (rowCols line delimiter)[idxAmount]? "0") = JsNum.val a →
      ¬ a = 0 →
      ((processRow today centers movementTypes delimiter idxDate idxAmount idxDetail
            idxCurrency idxTypeDesc line).map (fun d => d.centerId) =
          some (jsOr (centers.head?.map Center.id) "default")) ∧
      (normalizeStr (rawTypeDescOf (rowCols line delimiter) idxTypeDesc) = "" →
        (processRow today centers movementTypes delimiter idxDate idxAmount idxDetail
            idxCurrency idxTypeDesc line).map (fun d => d.movementTypeId) =
          some (jsOr (movementTypes.head?.map MovementType.id) "unknown")) ∧
      (∀ mt : MovementType,
        classify movementTypes (rawTypeDescOf (rowCols line delimiter) idxTypeDesc) =
            some mt →
          (processRow today centers movementTypes delimiter idxDate idxAmount idxDetail
              idxCurrency idxTypeDesc line).map (fun d => d.movementTypeId) = some mt.id) := by
  intro today centers movementTypes delimiter idxDate idxAmount idxDetail idxCurrency
    idxTypeDesc line a ha h0
  rw [processRow_some today centers movementTypes delimiter idxDate idxAmount idxDetail
    idxCurrency idxTypeDesc line a ha h0]
  refine ⟨rfl, ?_, ?_⟩
  · intro hn
    have hcl : classify movementTypes
        (rawTypeDescOf (rowCols line delimiter) idxTypeDesc) = none := by
      simp [classify, hn]
    simp [hcl]
  · intro mt hmt
    simp [hmt]

/-- C9 witness: on the row "01/01/2024;10;OFRENDAS;" (empty
type-description cell, detail "OFRENDAS") the emitted record takes the
default movement type and the first center. -/
theorem claim9_type_source_amended_witness :
    ((processRow today0 [c1C] [zzMT, ofrMT] ';' 0 1 (some 2) none (some 3)
          "01/01/2024;10;OFRENDAS;").map (fun d => d.centerId) = some "c1") ∧
      (normalizeStr (rawTypeDescOf (rowCols "01/01/2024;10;OFRENDAS;" ';') (some 3)) = "" →
        (processRow today0 [c1C] [zzMT, ofrMT] ';' 0 1 (some 2) none (some 3)
            "01/01/2024;10;OFRENDAS;").map (fun d => d.movementTypeId) = some "t_zz") ∧
      (∀ mt : MovementType,
        classify [zzMT, ofrMT]
            (rawTypeDescOf (rowCols "01/01/2024;10;OFRENDAS;" ';') (some 3)) = some mt →
          (processRow today0 [c1C] [zzMT, ofrMT] ';' 0 1 (some 2) none (some 3)
              "01/01/2024;10;OFRENDAS;").map (fun d => d.movementTypeId) = some mt.id) :=
  claim9_type_source_amended today0 [c1C] [zzMT, ofrMT] ';' 0 1 (some 2) none (some 3)
    "01/01/2024;10;OFRENDAS;" amount10 rfl (by norm_num [amount10])

/-- C4 counterexample: the row "01/01/2024;10;ZZZZ" matches no entry of
the catalog `[ofrMT]`, yet the emitted transaction references the real
catalog entry `ing_ofrendas` (the catalog's first id), not an
"unknown type" sentinel. -/
theorem claim4_counterexample :
    (parseSheetCSV genA today0 [c1C] [ofrMT]
        "Fecha;Monto;Descripcion_Tipo_Movimiento\n01/01/2024;10;ZZZZ").toOption.map
        (fun r => r.imported.map (fun t => t.movementTypeId)) = some ["ing_ofrendas"] ∧
    ([ofrMT].map (fun m => m.id)).contains "ing_ofrendas" = true ∧
    (("ing_ofrendas" : String) == "unknown") = false := by
  refine ⟨?_, by decide, by decide⟩
  rw [parseSheetCSV_ok genA today0 [c1C] [ofrMT]
      "Fecha;Monto;Descripcion_Tipo_Movimiento\n01/01/2024;10;ZZZZ"
      "Fecha;Monto;Descripcion_Tipo_Movimiento" "01/01/2024;10;ZZZZ" [] 0 1
      (by decide) (by decide) (by decide), importRows_eq]
  have hd := processRow_some today0 [c1C] [ofrMT]
    (detectDelimiter "Fecha;Monto;Descripcion_Tipo_Movimiento") 0 1
    ((headersOf "Fecha;Monto;Descripcion_Tipo_Movimiento").findIdx? (fun h => h = "detalle"))
    ((headersOf "Fecha;Monto;Descripcion_Tipo_Movimiento").findIdx? (fun h => h = "moneda"))
    (findIdxTypeDesc (headersOf "Fecha;Monto;Descripcion_Tipo_Movimiento"))
    "01/01/2024;10;ZZZZ" amount10 rfl (by norm_num [amount10])
  simp only [List.filterMap_cons_some hd, List.filterMap_nil, List.enum, List.enumFrom,
    List.map_cons, List.map_nil, Except.toOption, Option.map, Transaction.ofData]
  decide

/-- C9 counterexample: on a row whose type-description cell is empty and
whose detail cell reads "OFRENDAS", the classifier does not fall back to
the detail text: the emitted transaction references the default first
catalog entry `t_zz`, although classifying "OFRENDAS" would return
`ing_ofrendas`. -/
theorem claim9_counterexample :
    (parseSheetCSV genA today0 [c1C] [zzMT, ofrMT]
        "Fecha;Monto;Detalle;Descripcion_Tipo_Movimiento\n01/01/2024;10;OFRENDAS;").toOption.map
        (fun r => r.imported.map (fun t => t.movementTypeId)) = some ["t_zz"] ∧
    rawTypeDescOf (rowCols "01/01/2024;10;OFRENDAS;" ';') (some 3) = "" ∧
    (rowCols "01/01/2024;10;OFRENDAS;" ';')[2]? = some "OFRENDAS" ∧
    classify [zzMT, ofrMT] "OFRENDAS" = some ofrMT ∧
    (("t_zz" : String) == "ing_ofrendas") = false := by
  refine ⟨?_, by decide, by decide, by decide, by decide⟩
  rw [parseSheetCSV_ok genA today0 [c1C] [zzMT, ofrMT]
      "Fecha;Monto;Detalle;Descripcion_Tipo_Movimiento\n01/01/2024;10;OFRENDAS;"
      "Fecha;Monto;Detalle;Descripcion_Tipo_Movimiento" "01/01/2024;10;OFRENDAS;" [] 0 1
      (by decide) (by decide) (by decide), importRows_eq]
  have hd := processRow_some today0 [c1C] [zzMT, ofrMT]
    (detectDelimiter "Fecha;Monto;Detalle;Descripcion_Tipo_Movimiento") 0 1
    ((headersOf "Fecha;Monto;Detalle;Descripcion_Tipo_Movimiento").findIdx?
      (fun h => h = "detalle"))
    ((headersOf "Fecha;Monto;Detalle;Descripcion_Tipo_Movimiento").findIdx?
      (fun h => h = "moneda"))
    (findIdxTypeDesc (headersOf "Fecha;Monto;Detalle;Descripcion_Tipo_Movimiento"))
    "01/01/2024;10;OFRENDAS;" amount10 rfl (by norm_num [amount10])
  simp only [List.filterMap_cons_some hd, List.filterMap_nil, List.enum, List.enumFrom,
    List.map_cons, List.map_nil, Except.toOption, Option.map, Transaction.ofData]
  decide

/-- C7 counterexample: two runs of the reconciler on identical file
content draw different ids from `crypto.randomUUID()` (modelled by the
generators `genA`, `genB`), so the two candidate lists are not
element-wise equal. -/
theorem claim7_counterexample :
    (parseSheetCSV genA today0 [c1C] [ofrMT] "Fecha;Monto\n01/01/2024;10").toOption.map
        (fun r => r.imported.map (fun t => t.id)) = some ["uuid-a-0"] ∧
    (parseSheetCSV genB today0 [c1C] [ofrMT] "Fecha;Monto\n01/01/2024;10").toOption.map
        (fun r => r.imported.map (fun t => t.id)) = some ["uuid-b-0"] ∧
    (("uuid-a-0" : String) == "uuid-b-0") = false ∧
    ((parseSheetCSV genA today0 [c1C] [ofrMT] "Fecha;Monto\n01/01/2024;10").toOption.map
        (fun r => r.imported) ≠
      (parseSheetCSV genB today0 [c1C] [ofrMT] "Fecha;Monto\n01/01/2024;10").toOption.map
        (fun r => r.imported)) := by
  have key : ∀ gen : Nat → String,
      (parseSheetCSV gen today0 [c1C] [ofrMT] "Fecha;Monto\n01/01/2024;10").toOption.map
        (fun r => r.imported.map (fun t => t.id)) = some [gen 0] := by
    intro gen
    rw [parseSheetCSV_ok gen today0 [c1C] [ofrMT] "Fecha;Monto\n01/01/2024;10"
        "Fecha;Monto" "01/01/2024;10" [] 0 1 (by decide) (by decide) (by decide),
      importRows_eq]
    have hd := processRow_some today0 [c1C] [ofrMT] (detectDelimiter "Fecha;Monto") 0 1
      ((headersOf "Fecha;Monto").findIdx? (fun h => h = "detalle"))
      ((headersOf "Fecha;Monto").findIdx? (fun h => h = "moneda"))
      (findIdxTypeDesc (headersOf "Fecha;Monto"))
      "01/01/2024;10" amount10 rfl (by norm_num [amount10])
    simp only [List.filterMap_cons_some hd, List.filterMap_nil, List.enum, List.enumFrom,
      List.map_cons, List.map_nil, Except.toOption, Option.map, Transaction.ofData]
  refine ⟨key genA, key genB, by decide, ?_⟩
  intro h
  have h2 := congrArg (fun o => o.map (fun l => l.map (fun t : Transaction => t.id))) h
  simp only [Option.map_map, Function.comp_def] at h2
  rw [key genA, key genB] at h2
  exact absurd (by simpa using h2) (by decide)

/-- C7 amended: the reconciler is a deterministic pure function of the
file content, the catalogs and the clock, up to the randomly generated
ids: two runs agree element-wise on every field except `id`, and on the
abort reason and error count. -/
theorem claim7_determinism_amended :
    ∀ (gen₁ gen₂ : Nat → String) (today : String) (centers : List Center)
      (movementTypes : List MovementType) (csvText : String),
      stripRunIds (parseSheetCSV gen₁ today centers movementTypes csvText) =
        stripRunIds (parseSheetCSV gen₂ today centers movementTypes csvText) := by
  intro gen₁ gen₂ today centers movementTypes csvText
  cases hl : nonEmptyLines csvText with
  | nil => rw [parseSheetCSV, parseSheetCSV, hl]
  | cons l0 rest1 =>
    cases rest1 with
    | nil => rw [parseSheetCSV, parseSheetCSV, hl]
    | cons l1 rest =>
      cases hD : findIdxDate (headersOf l0) with
      | none =>
        rw [parseSheetCSV_missing gen₁ today centers movementTypes csvText l0 l1 rest hl
            (Or.inl hD),
          parseSheetCSV_missing gen₂ today centers movementTypes csvText l0 l1 rest hl
            (Or.inl hD)]
      | some iD =>
        cases hA : findIdxAmount (headersOf l0) with
        | none =>
          rw [parseSheetCSV_missing gen₁ today centers movementTypes csvText l0 l1 rest hl
              (Or.inr hA),
            parseSheetCSV_missing gen₂ today centers movementTypes csvText l0 l1 rest hl
              (Or.inr hA)]
        | some iA =>
          rw [parseSheetCSV_ok gen₁ today centers movementTypes csvText l0 l1 rest iD iA hl
              hD hA,
            parseSheetCSV_ok gen₂ today centers movementTypes csvText l0 l1 rest iD iA hl
              hD hA,
            importRows_eq, importRows_eq]
          simp only [stripRunIds, Except.map, List.map_map, List.enum]
          rw [← List.map_map, ← List.map_map, enumFrom_map_ofData_stripId gen₁,
            enumFrom_map_ofData_stripId gen₂]
